import Mathlib

/-!
Verification of the persistent-execution-manager core of spine-engine
(src/spine_engine/execution_managers/persistent_execution_manager.py),
as a shallow embedding in Lean 4.

Python threads, pipes and sockets are modelled by explicit environments:
the outcome of a stdin flush is a boolean, the payloads received by the
sentinel listener are a list of strings, and the registry is an explicit
association-list state threaded through the factory operation.
-/

namespace SpineEngine

/-! ## Messages and the internal message channel

Each message forwarded by the output-drain threads is a dictionary with
keys type (stdout or stderr) and data.  The channel also carries the
unique completion marker object COMMAND_FINISHED. -/

inductive StreamKind : Type
  | stdout
  | stderr
deriving DecidableEq, Repr

structure Msg : Type where
  type : StreamKind
  data : String
deriving DecidableEq, Repr

inductive QueueItem : Type
  | msg (m : Msg)
  | commandFinished
deriving DecidableEq, Repr

def QueueItem.isFinished : QueueItem → Bool
  | QueueItem.msg _ => false
  | QueueItem.commandFinished => true

def QueueItem.toMsg : QueueItem → Option Msg
  | QueueItem.msg m => some m
  | QueueItem.commandFinished => none

/-- Embedding of the consumer loop of PersistentManagerBase.issue_command:
it repeatedly takes an item from the message queue, stops at the first
COMMAND_FINISHED marker, and yields every message seen before it.  The
argument is the (chronologically ordered) sequence of items that will
arrive on the queue; the result is none when no marker ever arrives, in
which case the Python loop blocks forever. -/
def issue_command_yields : List QueueItem → Option (List Msg)
  | [] => none
  | QueueItem.commandFinished :: _ => some []
  | QueueItem.msg m :: rest => (issue_command_yields rest).map (fun l => m :: l)

/-! ## Writing to stdin

PersistentManagerBase._issue_command writes the stripped command plus two
os.linesep separators to the process stdin and flushes; only the flush is
guarded by the try/except for BrokenPipeError. -/

/-- The whitespace characters stripped by the Python str.strip method
(the ASCII ones; enough for the properties at stake). -/
def isPySpace (c : Char) : Bool :=
  c = ' ' || c = '\t' || c = '\n' || c = '\r' || c = '\x0b' || c = '\x0c'

def pyStripList (l : List Char) : List Char :=
  ((l.dropWhile isPySpace).reverse.dropWhile isPySpace).reverse

/-- Embedding of the Python str.strip method with no arguments. -/
def pyStrip (s : String) : String :=
  String.mk (pyStripList s.data)

/-- The exact text written to the process stdin by
PersistentManagerBase._issue_command for command cmd, with the
platform line separator os.linesep as a parameter. -/
def issue_command_bytes (linesep : String) (cmd : String) : String :=
  pyStrip cmd ++ linesep ++ linesep

/-- Exceptions that can cross the boundaries modelled here. -/
inductive PyExc : Type
  | brokenPipe
  | osError (msg : String)
deriving DecidableEq, Repr

/-- Flushing the stdin pipe: raises BrokenPipeError iff the process has
exited and the pipe is broken. -/
def stdin_flush (pipeBroken : Bool) : Except PyExc Unit :=
  if pipeBroken then Except.error PyExc.brokenPipe else Except.ok ()

/-- Embedding of PersistentManagerBase._issue_command: the buffered write
itself does not raise; the flush is attempted and BrokenPipeError is
caught, turning into the return value False.  Any other exception would
propagate. -/
def issue_command_write (pipeBroken : Bool) : Except PyExc Bool :=
  match stdin_flush pipeBroken with
  | Except.ok _ => Except.ok true
  | Except.error PyExc.brokenPipe => Except.ok false
  | Except.error e => Except.error e

/-! ## The sentinel wait -/

/-- State of the listening socket opened by _listen_and_enqueue for one
sentinel wait. -/
inductive ListenerState : Type
  | listening
  | released
deriving DecidableEq, Repr

/-- Embedding of PersistentManagerBase._wait_for_command_to_finish.
Inputs: whether flushing the sentinel command to stdin succeeds, and the
payloads the listener thread receives and enqueues, in order, together
with the generated secret.  Output: the return value of the method
(none when the Python code blocks forever on queue.get) paired with the
final state of the listener socket.  The listener thread releases its
socket only when its accept call has returned and the accepted
connection has closed, which happens exactly when the interpreter runs
the sentinel command; when the sentinel is never written (flush failed)
the thread stays blocked in accept and the socket stays open. -/
def wait_for_command_to_finish (sentinelWriteOk : Bool) (arrivals : List String)
    (secret : String) : Option Bool × ListenerState :=
  if sentinelWriteOk = false then
    (some false, ListenerState.listening)
  else if secret ∈ arrivals then
    (some true, ListenerState.released)
  else
    (none, ListenerState.listening)

/-- Embedding of PersistentManagerBase._issue_command_and_wait_for_finish:
command_successful is set to the conjunction (with Python short-circuit)
of _issue_command(cmd) and _wait_for_command_to_finish().  The result is
the value of command_successful observable once the message sequence has
drained; none means the wait blocks forever and the sequence never
drains.  The Except layer records whether an exception escapes. -/
def issue_command_and_wait_for_finish (cmdPipeBroken sentinelWriteOk : Bool)
    (arrivals : List String) (secret : String) : Except PyExc (Option Bool) :=
  match issue_command_write cmdPipeBroken with
  | Except.error e => Except.error e
  | Except.ok false => Except.ok (some false)
  | Except.ok true =>
      Except.ok (wait_for_command_to_finish sentinelWriteOk arrivals secret).fst

/-! ## Persistent manager state, restart and interrupt -/

/-- State of one PersistentManagerBase instance relevant to the
restart/interrupt/liveness operations. -/
structure PMState : Type where
  args : List String
  extraArgs : List String
  popenArgs : List String
  procAlive : Bool
  idle : Bool
  drainThreadsRunning : Bool
deriving DecidableEq, Repr

/-- Embedding of PersistentManagerBase.__init__: the process is launched
with Popen(self._args + self._extra_args()), the two drain threads are
started, and the idle flag is set. -/
def pmInit (args extraArgs : List String) : PMState :=
  { args := args
    extraArgs := extraArgs
    popenArgs := args ++ extraArgs
    procAlive := true
    idle := true
    drainThreadsRunning := true }

/-- The _extra_args of PythonPersistentManager. -/
def pythonExtraArgs : List String :=
  ["-c", "import socket, sys; sys.ps1 = sys.ps2 = ''"]

/-- The _extra_args of JuliaPersistentManager. -/
def juliaExtraArgs : List String :=
  ["-e", "using Sockets"]

/-- Embedding of PersistentManagerBase.restart_persistent: kill, wait,
then Popen(self._args, **self._kwargs) — note the relaunch passes only
self._args, without self._extra_args() — and restart the drain
threads. -/
def restart_persistent (st : PMState) : PMState :=
  { st with
    popenArgs := st.args
    procAlive := true
    idle := true
    drainThreadsRunning := true }

/-- Embedding of PersistentManagerBase.is_persistent_alive: the process
returncode is None exactly while no exit status has been observed. -/
def is_persistent_alive (st : PMState) : Bool :=
  st.procAlive

/-- Actions a thread can perform while interrupting the process. -/
inductive InterruptAction : Type
  | sendSignal (sig : String)
  | sleepSeconds (n : Nat)
deriving DecidableEq, Repr

/-- The platform-appropriate interrupt signal chosen by
_do_interrupt_persistent: signal.CTRL_C_EVENT on win32, signal.SIGINT
elsewhere. -/
def interruptSignal (isWin32 : Bool) : String :=
  if isWin32 then "CTRL_C_EVENT" else "SIGINT"

/-- Embedding of PersistentManagerBase._do_interrupt_persistent as the
trace of actions the daemon thread performs: three times, send the
signal then sleep one second. -/
def do_interrupt_persistent (isWin32 : Bool) : List InterruptAction :=
  (List.range 3).flatMap
    (fun _ => [InterruptAction.sendSignal (interruptSignal isWin32),
               InterruptAction.sleepSeconds 1])

/-- Embedding of PersistentManagerBase.interrupt_persistent: if the
persistent handle is None it returns at once; otherwise it starts a
daemon thread running _do_interrupt_persistent and returns.  The first
component is the trace of blocking actions performed synchronously by
the caller (always empty), the second the trace performed
asynchronously by the spawned thread. -/
def interrupt_persistent (persistentIsNone : Bool) (isWin32 : Bool) :
    List InterruptAction × List InterruptAction :=
  if persistentIsNone then ([], [])
  else ([], do_interrupt_persistent isWin32)

/-! ## The persistent manager factory (registry) -/

/-- A registry key: tuple(args + [group_id]). -/
def launchKey (args : List String) (groupId : String) : List String :=
  args ++ [groupId]

/-- A constructed persistent manager instance; id is a unique identity,
so two instances with distinct ids are distinct Python objects. -/
structure ManagerInst : Type where
  id : Nat
  alive : Bool
  language : String
deriving DecidableEq, Repr

/-- Structured events emitted to the logging collaborator. -/
inductive LogEvent : Type
  | persistentFailedToStart (args : String) (error : String)
  | persistentStarted (key : List String) (language : String)
  | executionStarted (args : String)
  | stdinData (data : String)
  | streamMsg (m : Msg)
deriving DecidableEq, Repr

/-- The mutable state of the _PersistentManagerFactory singleton:
the _persistent_managers map, plus a counter supplying fresh identities
to newly constructed instances. -/
structure FactoryState : Type where
  managers : List (List String × ManagerInst)
  nextId : Nat
deriving DecidableEq, Repr

def FactoryState.lookup (st : FactoryState) (key : List String) : Option ManagerInst :=
  (st.managers.find? (fun p => p.fst = key)).map Prod.snd

def FactoryState.store (st : FactoryState) (key : List String) (m : ManagerInst) :
    FactoryState :=
  { st with
    managers := (key, m) :: st.managers.filter (fun p => ¬ p.fst = key) }

/-- Embedding of calling the constructor: Popen either launches the
process (yielding a fresh instance and bumping the id counter) or
raises OSError with the given message. -/
def runConstructor (launchError : Option String) (language : String)
    (st : FactoryState) : Except PyExc (ManagerInst × FactoryState) :=
  match launchError with
  | some e => Except.error (PyExc.osError e)
  | none =>
      Except.ok ({ id := st.nextId, alive := true, language := language },
                 { st with nextId := st.nextId + 1 })

/-- Embedding of _PersistentManagerFactory.new_persistent_manager.
Returns the value returned to the caller (or the escaping exception),
the updated registry state, and the events emitted to the logger.
launchError describes whether the OS rejects process creation during
this call. -/
def new_persistent_manager (launchError : Option String) (language : String)
    (st : FactoryState) (args : List String) (groupId : Option String) :
    Except PyExc (Option ManagerInst) × FactoryState × List LogEvent :=
  match groupId with
  | none =>
      match runConstructor launchError language st with
      | Except.error e => (Except.error e, st, [])
      | Except.ok (m, st1) => (Except.ok (some m), st1, [])
  | some g =>
      let key := launchKey args g
      let afterCreate :
          Except PyExc (Option ManagerInst) × FactoryState × List LogEvent :=
        match st.lookup key with
        | some m =>
            if m.alive then
              (Except.ok (some m), st, [])
            else
              match runConstructor launchError language st with
              | Except.error (PyExc.osError e) =>
                  (Except.ok none, st,
                   [LogEvent.persistentFailedToStart (String.intercalate " " args) e])
              | Except.error e => (Except.error e, st, [])
              | Except.ok (m1, st1) => (Except.ok (some m1), st1.store key m1, [])
        | none =>
            match runConstructor launchError language st with
            | Except.error (PyExc.osError e) =>
                (Except.ok none, st,
                 [LogEvent.persistentFailedToStart (String.intercalate " " args) e])
            | Except.error e => (Except.error e, st, [])
            | Except.ok (m1, st1) => (Except.ok (some m1), st1.store key m1, [])
      match afterCreate with
      | (Except.ok none, st1, evs) => (Except.ok none, st1, evs)
      | (Except.error e, st1, evs) => (Except.error e, st1, evs)
      | (Except.ok (some _), st1, evs) =>
          match st1.lookup key with
          | none => (Except.ok none, st1, evs)
          | some pm =>
              (Except.ok (some pm), st1,
               evs ++ [LogEvent.persistentStarted key pm.language])

/-! ## The execution manager -/

/-- What the environment yields for one issued command: the messages
surfaced by issue_command and the resulting command_successful flag. -/
structure CmdRun : Type where
  cmd : String
  msgs : List Msg
  success : Bool
deriving DecidableEq, Repr

/-- The per-command loop of run_until_complete: forward every message of
each command to the logger, and stop returning -1 at the first command
whose command_successful flag is false; return 0 after the last one. -/
def run_commands : List CmdRun → Int × List LogEvent
  | [] => (0, [])
  | c :: rest =>
      let forwarded := c.msgs.map LogEvent.streamMsg
      if c.success then
        let (code, evs) := run_commands rest
        (code, forwarded ++ evs)
      else
        (-1, forwarded)

/-- Embedding of PersistentExecutionManagerBase.run_until_complete:
emits the execution_started event and the stdin alias event, then runs
the commands in order. -/
def run_until_complete (args : List String) (aliasText : String)
    (runs : List CmdRun) : Int × List LogEvent :=
  let header := [LogEvent.executionStarted (String.intercalate " " args),
                 LogEvent.stdinData (pyStrip aliasText)]
  let (code, evs) := run_commands runs
  (code, header ++ evs)

/-! ## Helper lemmas -/

theorem pyStripList_sandwich (w1 w2 l : List Char)
    (h1 : ∀ c ∈ w1, isPySpace c = true) (h2 : ∀ c ∈ w2, isPySpace c = true) :
    pyStripList (w1 ++ l ++ w2) = pyStripList l := by
  unfold pyStripList
  rw [List.append_assoc, List.dropWhile_append_of_pos h1]
  rcases hd : List.dropWhile isPySpace l with _ | ⟨c, cs⟩
  · have hall : ∀ c ∈ l ++ w2, isPySpace c = true := by
      intro c hc
      rcases List.mem_append.mp hc with hcl | hcw
      · have := List.dropWhile_eq_nil_iff.mp hd
        exact this c hcl
      · exact h2 c hcw
    rw [List.dropWhile_eq_nil_iff.mpr hall]
  · have hw2r : ∀ c ∈ w2.reverse, isPySpace c = true :=
      fun c hc => h2 c (List.mem_reverse.mp hc)
    rw [List.dropWhile_append, hd]
    simp only [List.isEmpty_cons, Bool.false_eq_true, if_false]
    rw [List.reverse_append, List.dropWhile_append_of_pos hw2r]

theorem pyStrip_sandwich (w1 w2 s : String)
    (h1 : ∀ c ∈ w1.data, isPySpace c = true) (h2 : ∀ c ∈ w2.data, isPySpace c = true) :
    pyStrip (w1 ++ s ++ w2) = pyStrip s := by
  unfold pyStrip
  have : (w1 ++ s ++ w2).data = w1.data ++ s.data ++ w2.data := by
    cases w1; cases s; cases w2; rfl
  rw [this, pyStripList_sandwich w1.data w2.data s.data h1 h2]

/-! ## Theorems for the claims -/

/-- C9: Launch Key equality implies argument-for-argument identity: if
tuple(args1 + [g1]) equals tuple(args2 + [g2]) then args1 = args2 and
g1 = g2. -/
theorem launchKey_inj (args1 args2 : List String) (g1 g2 : String)
    (h : launchKey args1 g1 = launchKey args2 g2) : args1 = args2 ∧ g1 = g2 := by
  unfold launchKey at h
  have := List.append_inj' h rfl
  exact ⟨this.1, by simpa using this.2⟩

theorem launchKey_inj_witness :
    ["python3", "-i"] = ["python3", "-i"] ∧ "g1" = "g1" :=
  launchKey_inj ["python3", "-i"] ["python3", "-i"] "g1" "g1" rfl

/-- C10: _issue_command writes exactly the stripped command followed by
two os.linesep separators; hence the write ends in a trailing blank
line, and two commands differing only in surrounding whitespace produce
identical writes. -/
theorem issue_command_bytes_spec (linesep cmd w1 w2 : String)
    (h1 : ∀ c ∈ w1.data, isPySpace c = true)
    (h2 : ∀ c ∈ w2.data, isPySpace c = true) :
    issue_command_bytes linesep cmd = pyStrip cmd ++ linesep ++ linesep
    ∧ (∃ q, issue_command_bytes linesep cmd = q ++ linesep ++ linesep)
    ∧ issue_command_bytes linesep (w1 ++ cmd ++ w2) = issue_command_bytes linesep cmd := by
  refine ⟨rfl, ⟨pyStrip cmd, rfl⟩, ?_⟩
  unfold issue_command_bytes
  rw [pyStrip_sandwich w1 w2 cmd h1 h2]

theorem issue_command_bytes_spec_witness :
    issue_command_bytes "\n" "print(42)" = pyStrip "print(42)" ++ "\n" ++ "\n"
    ∧ (∃ q, issue_command_bytes "\n" "print(42)" = q ++ "\n" ++ "\n")
    ∧ issue_command_bytes "\n" (" " ++ "print(42)" ++ "\t\n") = issue_command_bytes "\n" "print(42)" :=
  issue_command_bytes_spec "\n" "print(42)" " " "\t\n" (by decide) (by decide)

/-- C6: issue_command yields exactly the messages arriving on the
message channel, in arrival order, up to but not including the first
COMMAND_FINISHED marker, and the yielded sequence terminates (is some)
when that marker appears. -/
theorem issue_command_yields_spec (q : List QueueItem)
    (h : QueueItem.commandFinished ∈ q) :
    issue_command_yields q
      = some ((q.takeWhile (fun i => ! i.isFinished)).filterMap QueueItem.toMsg) := by
  induction q with
  | nil => cases h
  | cons i rest ih =>
      cases i with
      | commandFinished =>
          simp [issue_command_yields, QueueItem.isFinished, List.takeWhile_cons]
      | msg m =>
          have hr : QueueItem.commandFinished ∈ rest := by
            rcases List.mem_cons.mp h with h0 | h0
            · exact absurd h0 (by simp)
            · exact h0
          simp [issue_command_yields, ih hr, QueueItem.isFinished, QueueItem.toMsg,
            List.takeWhile_cons]

theorem issue_command_yields_spec_witness :
    issue_command_yields
        [QueueItem.msg ⟨StreamKind.stdout, "42"⟩,
         QueueItem.msg ⟨StreamKind.stderr, "warn"⟩,
         QueueItem.commandFinished,
         QueueItem.msg ⟨StreamKind.stdout, "late"⟩]
      = some [⟨StreamKind.stdout, "42"⟩, ⟨StreamKind.stderr, "warn"⟩] := by
  have := issue_command_yields_spec
    [QueueItem.msg ⟨StreamKind.stdout, "42"⟩,
     QueueItem.msg ⟨StreamKind.stderr, "warn"⟩,
     QueueItem.commandFinished,
     QueueItem.msg ⟨StreamKind.stdout, "late"⟩] (by decide)
  rw [this]
  rfl

/-- C1: once the yielded sequence has drained (the flag value is
observable, result = ok (some b)), command_successful is true iff the
command flush succeeded, the sentinel flush succeeded and the secret was
observed by the listener; and when the stdin pipe is already broken the
flag is false and no exception escapes (the result is ok, not error). -/
theorem command_successful_spec (cmdPipeBroken sentinelWriteOk : Bool)
    (arrivals : List String) (secret : String) (b : Bool)
    (h : issue_command_and_wait_for_finish cmdPipeBroken sentinelWriteOk arrivals secret
          = Except.ok (some b)) :
    (b = true ↔ cmdPipeBroken = false ∧ sentinelWriteOk = true ∧ secret ∈ arrivals)
    ∧ (cmdPipeBroken = true →
        issue_command_and_wait_for_finish cmdPipeBroken sentinelWriteOk arrivals secret
          = Except.ok (some false)) := by
  by_cases hm : secret ∈ arrivals <;>
    cases cmdPipeBroken <;> cases sentinelWriteOk <;>
    simp_all [issue_command_and_wait_for_finish, issue_command_write, stdin_flush,
      wait_for_command_to_finish]

theorem command_successful_spec_witness :
    (true = true ↔ false = false ∧ true = true ∧ "tok" ∈ ["tok"])
    ∧ (false = true →
        issue_command_and_wait_for_finish false true ["tok"] "tok"
          = Except.ok (some false)) :=
  command_successful_spec false true ["tok"] "tok" true rfl

/-- C2 counterexample: when flushing the sentinel command fails (broken
pipe), _wait_for_command_to_finish exits with False yet the listener
thread is still blocked in accept, so the listening socket is not
released on that exit path. -/
theorem sentinel_wait_leaks_listener_on_write_failure :
    (wait_for_command_to_finish false [] "tok0").fst = some false
    ∧ (wait_for_command_to_finish false [] "tok0").snd ≠ ListenerState.released := by
  decide

/-- C2 amended: the listening socket is released on the success exit
path (the secret was observed, the sentinel connection closed and the
listener thread was joined), but when the sentinel write fails the wait
returns False immediately while the listener thread stays blocked in
accept, leaving the socket open. -/
theorem sentinel_wait_listener_spec (sentinelWriteOk : Bool)
    (arrivals : List String) (secret : String) :
    ((wait_for_command_to_finish sentinelWriteOk arrivals secret).fst = some true →
      (wait_for_command_to_finish sentinelWriteOk arrivals secret).snd
        = ListenerState.released)
    ∧ (sentinelWriteOk = false →
        (wait_for_command_to_finish sentinelWriteOk arrivals secret).fst = some false
        ∧ (wait_for_command_to_finish sentinelWriteOk arrivals secret).snd
            = ListenerState.listening) := by
  by_cases hm : secret ∈ arrivals <;>
    cases sentinelWriteOk <;>
    simp_all [wait_for_command_to_finish]

theorem sentinel_wait_listener_spec_witness :
    (wait_for_command_to_finish true ["tok"] "tok").snd = ListenerState.released
    ∧ ((wait_for_command_to_finish false [] "tok").fst = some false
       ∧ (wait_for_command_to_finish false [] "tok").snd = ListenerState.listening) :=
  ⟨(sentinel_wait_listener_spec true ["tok"] "tok").1 (by decide),
   (sentinel_wait_listener_spec false [] "tok").2 rfl⟩

/-- C3: evaluation at the failing input.  For a Python persistent
manager launched with args ["python3"], the original launch used the
adapter-augmented vector ["python3"] ++ pythonExtraArgs, but
restart_persistent relaunches with Popen(self._args) alone, so the
relaunch argument vector differs from the original one; the remaining
parts of the claim (process alive again, drain threads restarted) do
hold. -/
theorem restart_persistent_relaunch_args :
    (pmInit ["python3"] pythonExtraArgs).popenArgs = ["python3"] ++ pythonExtraArgs
    ∧ (restart_persistent (pmInit ["python3"] pythonExtraArgs)).popenArgs = ["python3"]
    ∧ (restart_persistent (pmInit ["python3"] pythonExtraArgs)).popenArgs
        ≠ (pmInit ["python3"] pythonExtraArgs).popenArgs
    ∧ is_persistent_alive (restart_persistent (pmInit ["python3"] pythonExtraArgs)) = true
    ∧ (restart_persistent (pmInit ["python3"] pythonExtraArgs)).drainThreadsRunning
        = true := by
  refine ⟨rfl, rfl, ?_, rfl, rfl⟩
  decide

/-- C4 counterexample: for an isolated request (group None) whose
constructor raises OSError, new_persistent_manager lets the exception
propagate past the acquire boundary and emits no
persistent_failed_to_start event. -/
theorem isolated_launch_failure_propagates :
    (new_persistent_manager (some "No such file or directory") "python"
        { managers := [], nextId := 0 } ["nonexistent"] none).fst
      = Except.error (PyExc.osError "No such file or directory")
    ∧ (new_persistent_manager (some "No such file or directory") "python"
        { managers := [], nextId := 0 } ["nonexistent"] none).snd.snd = [] :=
  ⟨rfl, rfl⟩

/-- C4 amended: for a grouped acquire whose key has no live entry, a
launch failure is reported once as persistent_failed_to_start carrying
the joined argument string and the error text, the call returns None
and no exception propagates; for an isolated (group None) acquire the
OSError propagates to the caller and nothing is logged. -/
theorem launch_failure_spec (e language : String) (st : FactoryState)
    (args : List String) (g : String)
    (hnew : ∀ m, st.lookup (launchKey args g) = some m → m.alive = false) :
    (new_persistent_manager (some e) language st args (some g)).fst = Except.ok none
    ∧ (new_persistent_manager (some e) language st args (some g)).snd.fst = st
    ∧ (new_persistent_manager (some e) language st args (some g)).snd.snd
        = [LogEvent.persistentFailedToStart (String.intercalate " " args) e]
    ∧ (new_persistent_manager (some e) language st args none).fst
        = Except.error (PyExc.osError e)
    ∧ (new_persistent_manager (some e) language st args none).snd.snd = [] := by
  rcases hl : st.lookup (launchKey args g) with _ | m
  · simp [new_persistent_manager, runConstructor, hl]
  · have hdead := hnew m hl
    simp [new_persistent_manager, runConstructor, hl, hdead]

theorem launch_failure_spec_witness :
    (new_persistent_manager (some "boom") "python"
        { managers := [], nextId := 0 } ["badpython"] (some "g1")).fst = Except.ok none
    ∧ (new_persistent_manager (some "boom") "python"
        { managers := [], nextId := 0 } ["badpython"] (some "g1")).snd.fst
        = { managers := [], nextId := 0 }
    ∧ (new_persistent_manager (some "boom") "python"
        { managers := [], nextId := 0 } ["badpython"] (some "g1")).snd.snd
        = [LogEvent.persistentFailedToStart (String.intercalate " " ["badpython"]) "boom"]
    ∧ (new_persistent_manager (some "boom") "python"
        { managers := [], nextId := 0 } ["badpython"] none).fst
        = Except.error (PyExc.osError "boom")
    ∧ (new_persistent_manager (some "boom") "python"
        { managers := [], nextId := 0 } ["badpython"] none).snd.snd = [] :=
  launch_failure_spec "boom" "python" { managers := [], nextId := 0 } ["badpython"] "g1"
    (fun m hm => by simp [FactoryState.lookup] at hm)

/-! Helper lemmas for run_until_complete. -/

theorem run_commands_zero_iff (runs : List CmdRun) :
    (run_commands runs).fst = 0 ↔ ∀ c ∈ runs, c.success = true := by
  induction runs with
  | nil => simp [run_commands]
  | cons c rest ih =>
      by_cases hc : c.success = true <;>
        simp [run_commands, hc, ih]

theorem run_commands_all_success (runs : List CmdRun)
    (h : ∀ c ∈ runs, c.success = true) :
    run_commands runs
      = (0, runs.flatMap (fun c => c.msgs.map LogEvent.streamMsg)) := by
  induction runs with
  | nil => simp [run_commands]
  | cons c rest ih =>
      have hc := h c (by simp)
      have hr : ∀ d ∈ rest, d.success = true := fun d hd => h d (by simp [hd])
      simp [run_commands, hc, ih hr]

theorem run_commands_first_failure (pre : List CmdRun) (c : CmdRun)
    (rest : List CmdRun) (hpre : ∀ d ∈ pre, d.success = true)
    (hc : c.success = false) :
    run_commands (pre ++ c :: rest)
      = (-1, pre.flatMap (fun d => d.msgs.map LogEvent.streamMsg)
             ++ c.msgs.map LogEvent.streamMsg) := by
  induction pre with
  | nil => simp [run_commands, hc]
  | cons d ds ih =>
      have hd := hpre d (by simp)
      have hds : ∀ x ∈ ds, x.success = true := fun x hx => hpre x (by simp [hx])
      simp [run_commands, hd, ih hds, List.append_assoc]

/-- C7: run_until_complete returns 0 iff every command succeeds; when
all succeed it forwards every output message of every command (after
the execution_started and stdin header events); and at the first
command whose success flag is false it returns -1 having forwarded the
messages of the preceding commands and of the failed one but nothing of
the remaining commands. -/
theorem run_until_complete_spec (args : List String) (aliasText : String)
    (runs : List CmdRun) :
    ((run_until_complete args aliasText runs).fst = 0 ↔ ∀ c ∈ runs, c.success = true)
    ∧ ((∀ c ∈ runs, c.success = true) →
        (run_until_complete args aliasText runs).snd
          = [LogEvent.executionStarted (String.intercalate " " args),
             LogEvent.stdinData (pyStrip aliasText)]
            ++ runs.flatMap (fun c => c.msgs.map LogEvent.streamMsg))
    ∧ (∀ pre c rest, runs = pre ++ c :: rest →
        (∀ d ∈ pre, d.success = true) → c.success = false →
        (run_until_complete args aliasText runs).fst = -1
        ∧ (run_until_complete args aliasText runs).snd
            = [LogEvent.executionStarted (String.intercalate " " args),
               LogEvent.stdinData (pyStrip aliasText)]
              ++ (pre.flatMap (fun d => d.msgs.map LogEvent.streamMsg)
                  ++ c.msgs.map LogEvent.streamMsg)) := by
  refine ⟨?_, ?_, ?_⟩
  · simpa [run_until_complete] using run_commands_zero_iff runs
  · intro h
    simp [run_until_complete, run_commands_all_success runs h]
  · intro pre c rest hruns hpre hc
    subst hruns
    simp [run_until_complete, run_commands_first_failure pre c rest hpre hc]

theorem run_until_complete_spec_witness :
    ((run_until_complete ["python3"] "py"
        [⟨"print(42)", [⟨StreamKind.stdout, "42"⟩], true⟩,
         ⟨"boom()", [⟨StreamKind.stderr, "err"⟩], false⟩,
         ⟨"print(1)", [⟨StreamKind.stdout, "1"⟩], true⟩]).fst = -1
      ∧ (run_until_complete ["python3"] "py"
            [⟨"print(42)", [⟨StreamKind.stdout, "42"⟩], true⟩,
             ⟨"boom()", [⟨StreamKind.stderr, "err"⟩], false⟩,
             ⟨"print(1)", [⟨StreamKind.stdout, "1"⟩], true⟩]).snd
          = [LogEvent.executionStarted (String.intercalate " " ["python3"]),
             LogEvent.stdinData (pyStrip "py")]
            ++ ([⟨"print(42)", [⟨StreamKind.stdout, "42"⟩], true⟩].flatMap
                  (fun d : CmdRun => d.msgs.map LogEvent.streamMsg)
                ++ [(⟨StreamKind.stderr, "err"⟩ : Msg)].map LogEvent.streamMsg))
    ∧ (run_until_complete ["python3"] "py"
          [⟨"print(42)", [⟨StreamKind.stdout, "42"⟩], true⟩]).snd
        = [LogEvent.executionStarted (String.intercalate " " ["python3"]),
           LogEvent.stdinData (pyStrip "py")]
          ++ [(⟨"print(42)", [⟨StreamKind.stdout, "42"⟩], true⟩ : CmdRun)].flatMap
               (fun c => c.msgs.map LogEvent.streamMsg) :=
  ⟨(run_until_complete_spec ["python3"] "py"
      [⟨"print(42)", [⟨StreamKind.stdout, "42"⟩], true⟩,
       ⟨"boom()", [⟨StreamKind.stderr, "err"⟩], false⟩,
       ⟨"print(1)", [⟨StreamKind.stdout, "1"⟩], true⟩]).2.2
     [⟨"print(42)", [⟨StreamKind.stdout, "42"⟩], true⟩]
     ⟨"boom()", [⟨StreamKind.stderr, "err"⟩], false⟩
     [⟨"print(1)", [⟨StreamKind.stdout, "1"⟩], true⟩]
     rfl (by decide) rfl,
   (run_until_complete_spec ["python3"] "py"
      [⟨"print(42)", [⟨StreamKind.stdout, "42"⟩], true⟩]).2.1 (by decide)⟩

/-- C8: interrupt_persistent performs no blocking action in the calling
context (it returns immediately, the synchronous trace is empty); the
spawned daemon thread sends the interrupt signal at most 3 times, its
full trace being signal, one-second sleep, repeated three times; and
the signal is CTRL_C_EVENT on win32 and SIGINT elsewhere. -/
theorem interrupt_persistent_spec (persistentIsNone isWin32 : Bool) :
    (interrupt_persistent persistentIsNone isWin32).fst = []
    ∧ ((interrupt_persistent persistentIsNone isWin32).snd.count
        (InterruptAction.sendSignal (interruptSignal isWin32))) ≤ 3
    ∧ (persistentIsNone = false →
        (interrupt_persistent persistentIsNone isWin32).snd
          = [InterruptAction.sendSignal (interruptSignal isWin32),
             InterruptAction.sleepSeconds 1,
             InterruptAction.sendSignal (interruptSignal isWin32),
             InterruptAction.sleepSeconds 1,
             InterruptAction.sendSignal (interruptSignal isWin32),
             InterruptAction.sleepSeconds 1])
    ∧ interruptSignal true = "CTRL_C_EVENT"
    ∧ interruptSignal false = "SIGINT" := by
  cases persistentIsNone <;> cases isWin32 <;> decide

theorem interrupt_persistent_spec_witness :
    (interrupt_persistent false false).snd
      = [InterruptAction.sendSignal (interruptSignal false),
         InterruptAction.sleepSeconds 1,
         InterruptAction.sendSignal (interruptSignal false),
         InterruptAction.sleepSeconds 1,
         InterruptAction.sendSignal (interruptSignal false),
         InterruptAction.sleepSeconds 1] :=
  (interrupt_persistent_spec false false).2.2.1 rfl

theorem FactoryState.lookup_store (st : FactoryState) (key : List String)
    (m : ManagerInst) : (st.store key m).lookup key = some m := by
  unfold FactoryState.lookup FactoryState.store
  rw [List.find?_cons_of_pos]
  · rfl
  · simp

/-- C5: the registry reuse/isolation policy.  A grouped acquire whose
key holds a live entry returns that very entry and leaves the registry
unchanged (so two equal-key grouped acquires return the same instance
while it is alive); a grouped acquire whose key holds a dead entry
replaces it with a freshly constructed, distinct instance stored under
the key; a grouped acquire with no entry stores the instance it
returns; and an isolated (group None) acquire constructs a fresh
instance, never stores it, and two such calls in sequence return
distinct instances. -/
theorem acquire_reuse_isolation_spec (language : String) (st : FactoryState)
    (args : List String) :
    (∀ g m launchError, st.lookup (launchKey args g) = some m → m.alive = true →
        (new_persistent_manager launchError language st args (some g)).fst
          = Except.ok (some m)
        ∧ (new_persistent_manager launchError language st args (some g)).snd.fst = st)
    ∧ (∀ g m, st.lookup (launchKey args g) = some m → m.alive = false →
        m.id < st.nextId →
        ∃ m1, (new_persistent_manager none language st args (some g)).fst
                = Except.ok (some m1)
          ∧ ¬ m1 = m
          ∧ ((new_persistent_manager none language st args (some g)).snd.fst).lookup
              (launchKey args g) = some m1)
    ∧ (∀ g, st.lookup (launchKey args g) = none →
        ∃ m1, (new_persistent_manager none language st args (some g)).fst
                = Except.ok (some m1)
          ∧ ((new_persistent_manager none language st args (some g)).snd.fst).lookup
              (launchKey args g) = some m1)
    ∧ (∃ m1 m2,
        (new_persistent_manager none language st args none).fst = Except.ok (some m1)
        ∧ ((new_persistent_manager none language st args none).snd.fst).managers
            = st.managers
        ∧ (new_persistent_manager none language
             ((new_persistent_manager none language st args none).snd.fst) args none).fst
            = Except.ok (some m2)
        ∧ ¬ m1 = m2) := by
  refine ⟨?_, ?_, ?_, ?_⟩
  · intro g m launchError hl halive
    simp [new_persistent_manager, hl, halive]
  · intro g m hl hdead hid
    refine ⟨{ id := st.nextId, alive := true, language := language }, ?_, ?_, ?_⟩
    · simp [new_persistent_manager, runConstructor, hl, hdead,
        FactoryState.lookup_store]
    · intro hcontra
      have : st.nextId = m.id := congrArg ManagerInst.id hcontra
      omega
    · simp [new_persistent_manager, runConstructor, hl, hdead,
        FactoryState.lookup_store]
  · intro g hl
    refine ⟨{ id := st.nextId, alive := true, language := language }, ?_, ?_⟩
    · simp [new_persistent_manager, runConstructor, hl, FactoryState.lookup_store]
    · simp [new_persistent_manager, runConstructor, hl, FactoryState.lookup_store]
  · refine ⟨{ id := st.nextId, alive := true, language := language },
           { id := st.nextId + 1, alive := true, language := language },
           ?_, ?_, ?_, ?_⟩
    · simp [new_persistent_manager, runConstructor]
    · simp [new_persistent_manager, runConstructor]
    · simp [new_persistent_manager, runConstructor]
    · intro hcontra
      have : st.nextId = st.nextId + 1 := congrArg ManagerInst.id hcontra
      omega

theorem acquire_reuse_isolation_spec_witness :
    ((new_persistent_manager none "python"
        { managers := [(launchKey ["python3"] "g1",
                        { id := 0, alive := true, language := "python" })],
          nextId := 1 } ["python3"] (some "g1")).fst
      = Except.ok (some { id := 0, alive := true, language := "python" })
     ∧ (new_persistent_manager none "python"
          { managers := [(launchKey ["python3"] "g1",
                          { id := 0, alive := true, language := "python" })],
            nextId := 1 } ["python3"] (some "g1")).snd.fst
        = { managers := [(launchKey ["python3"] "g1",
                          { id := 0, alive := true, language := "python" })],
            nextId := 1 })
    ∧ (∃ m1, (new_persistent_manager none "python"
          { managers := [(launchKey ["python3"] "g1",
                          { id := 0, alive := false, language := "python" })],
            nextId := 1 } ["python3"] (some "g1")).fst = Except.ok (some m1)
        ∧ ¬ m1 = { id := 0, alive := false, language := "python" }
        ∧ ((new_persistent_manager none "python"
              { managers := [(launchKey ["python3"] "g1",
                              { id := 0, alive := false, language := "python" })],
                nextId := 1 } ["python3"] (some "g1")).snd.fst).lookup
            (launchKey ["python3"] "g1") = some m1)
    ∧ (∃ m1, (new_persistent_manager none "python"
          { managers := [], nextId := 0 } ["python3"] (some "g1")).fst
            = Except.ok (some m1)
        ∧ ((new_persistent_manager none "python"
              { managers := [], nextId := 0 } ["python3"] (some "g1")).snd.fst).lookup
            (launchKey ["python3"] "g1") = some m1)
    ∧ (∃ m1 m2,
        (new_persistent_manager none "python"
            { managers := [], nextId := 0 } ["python3"] none).fst
          = Except.ok (some m1)
        ∧ ((new_persistent_manager none "python"
              { managers := [], nextId := 0 } ["python3"] none).snd.fst).managers = []
        ∧ (new_persistent_manager none "python"
             ((new_persistent_manager none "python"
                 { managers := [], nextId := 0 } ["python3"] none).snd.fst)
             ["python3"] none).fst = Except.ok (some m2)
        ∧ ¬ m1 = m2) :=
  ⟨(acquire_reuse_isolation_spec "python"
      { managers := [(launchKey ["python3"] "g1",
                      { id := 0, alive := true, language := "python" })],
        nextId := 1 } ["python3"]).1 "g1"
      { id := 0, alive := true, language := "python" } none (by decide) rfl,
   (acquire_reuse_isolation_spec "python"
      { managers := [(launchKey ["python3"] "g1",
                      { id := 0, alive := false, language := "python" })],
        nextId := 1 } ["python3"]).2.1 "g1"
      { id := 0, alive := false, language := "python" } (by decide) rfl (by decide),
   (acquire_reuse_isolation_spec "python"
      { managers := [], nextId := 0 } ["python3"]).2.2.1 "g1" (by decide),
   (acquire_reuse_isolation_spec "python"
      { managers := [], nextId := 0 } ["python3"]).2.2.2⟩

end SpineEngine
